import Mathlib

/-!
Verification of the pic2pin metadata-extraction pipeline (src/pic2pin.py).

The source is shallowly embedded: numeric values are modelled exactly as
rationals (the Python code uses float division; the spec's statements are
"within floating-point tolerance", so the ideal rational semantics is the
reference), Python exceptions are modelled by an explicit error type
threaded through `Except`, and external collaborators (the file system,
exifread's parser, hashlib, geopy) are parameters of the embedded
functions.
-/

namespace Pic2Pin

/-- A rational value pair as stored in an EXIF tag (exifread Ratio object):
a numerator and a denominator, both machine integers. -/
structure RatPair where
  num : Int
  den : Int
deriving Repr, DecidableEq

/-- An EXIF IFD tag as exposed by exifread to this program: the list of
rational values (`tag.values`), the printable rendering (`tag.printable`),
and, for integer-typed tags such as GPSAltitudeRef, the integer the tag
compares equal to (`intVal`). -/
structure IfdTag where
  values : List RatPair
  printable : String
  intVal : Option Int
deriving Repr, DecidableEq

/-- Python exceptions that can escape the embedded functions. -/
inductive PyErr where
  | zeroDivisionError
  | indexError
  | keyError (key : String)
  | ioError (path : String)
  | geoError
deriving Repr, DecidableEq

/-- Python division `n / d` on two ints: raises ZeroDivisionError when the
denominator is zero, otherwise produces the (idealised, exact) quotient. -/
def pyDiv (n d : Int) : Except PyErr Rat :=
  if d = 0 then .error .zeroDivisionError else .ok ((n : Rat) / (d : Rat))

/-- Python list subscript `values[i]`: raises IndexError past the end. -/
def pyIndex (vs : List RatPair) (i : Nat) : Except PyErr RatPair :=
  match vs[i]? with
  | some r => .ok r
  | none => .error .indexError

/-- Embedding of `ifdtag_to_decimal` (src/pic2pin.py lines 132-138):
`tag.values[0].num / tag.values[0].den
 + tag.values[1].num / tag.values[1].den / 60
 + tag.values[2].num / tag.values[2].den / 3600`,
with the Python exceptions (IndexError on a short value list,
ZeroDivisionError on a zero denominator) made explicit. -/
def ifdtag_to_decimal (tag : IfdTag) : Except PyErr Rat := do
  let v0 ← pyIndex tag.values 0
  let degree ← pyDiv v0.num v0.den
  let v1 ← pyIndex tag.values 1
  let m ← pyDiv v1.num v1.den
  let minute := m / 60
  let v2 ← pyIndex tag.values 2
  let s ← pyDiv v2.num v2.den
  let second := s / 3600
  pure (degree + minute + second)

/-- The dictionary returned by `exifread.process_file`, restricted to what
the program reads: a finite map from tag names to tags. -/
structure Header where
  tags : List (String × IfdTag)
deriving Repr, DecidableEq

/-- Python `header.get(key)`: the value when present, None otherwise. -/
def Header.get (h : Header) (k : String) : Option IfdTag :=
  (h.tags.find? (fun p => p.1 == k)).map (fun p => p.2)

/-- Python `header[key]`: raises KeyError when the key is absent. -/
def Header.getItem (h : Header) (k : String) : Except PyErr IfdTag :=
  match h.get k with
  | some t => .ok t
  | none => .error (.keyError k)

/-- Modelled from the spec: the comparison `header['GPS GPSAltitudeRef'] == 1`
compares an exifread IfdTag (external library code, not in src/) with the
integer 1; the spec states below sea level is "encoded as integer 1", so the
comparison is modelled as the tag's integer value being 1. -/
def IfdTag.eqInt (t : IfdTag) (n : Int) : Bool :=
  t.intVal == some n

/-- The GPS dictionary built by `grab_gps`: each key present or absent. -/
structure GpsMeta where
  latitude : Option Rat
  longitude : Option Rat
  altitude : Option Rat
deriving Repr, DecidableEq

/-- The latitude/longitude block of `grab_gps` (src/pic2pin.py lines
159-171): when both magnitude tags are present (exifread tag objects are
truthy), convert both to decimal, then read the two reference tags with
`header[...]` — whose absence raises KeyError — and negate on an exact
printable match with "S" / "W". Returns the pair to be stored in the
dictionary, or none when either magnitude tag is absent. -/
def latlongPart (header : Header) : Except PyErr (Option (Rat × Rat)) :=
  match header.get "GPS GPSLatitude", header.get "GPS GPSLongitude" with
  | some lt, some lg => do
      let latitude ← ifdtag_to_decimal lt
      let longitude ← ifdtag_to_decimal lg
      let latRef ← header.getItem "GPS GPSLatitudeRef"
      let latitude := if latRef.printable == "S" then latitude * (-1) else latitude
      let longRef ← header.getItem "GPS GPSLongitudeRef"
      let longitude := if longRef.printable == "W" then longitude * (-1) else longitude
      pure (some (latitude, longitude))
  | _, _ => pure none

/-- The altitude block of `grab_gps` (src/pic2pin.py lines 173-178): when
the altitude tag is present, decode `values[0].num / values[0].den`, read
the altitude reference with `header[...]` — whose absence raises KeyError —
and negate when it compares equal to the integer 1. -/
def altPart (header : Header) : Except PyErr (Option Rat) :=
  match header.get "GPS GPSAltitude" with
  | some t => do
      let alt_ratio ← pyIndex t.values 0
      let a ← pyDiv alt_ratio.num alt_ratio.den
      let altRef ← header.getItem "GPS GPSAltitudeRef"
      let a := if altRef.eqInt 1 then a * (-1) else a
      pure (some a)
  | none => pure none

/-- Embedding of `grab_gps` (src/pic2pin.py lines 141-180) after the external
`exifread.process_file` call: `header` stands for the parsed metadata of the
file. The function runs the latitude/longitude block, then the altitude
block (exceptions from either propagate, in that order, exactly as in the
source), and assembles the dictionary: latitude and longitude are stored
together when the first block produced a pair, altitude when the second
block produced a value. -/
def grab_gps (header : Header) : Except PyErr GpsMeta := do
  let latlong ← latlongPart header
  let altitude ← altPart header
  match latlong with
  | some ll => pure { latitude := some ll.1, longitude := some ll.2, altitude := altitude }
  | none => pure { latitude := none, longitude := none, altitude := altitude }

/-- The result of the external geopy call
`geoloc.reverse(...).address`: an address string, a TypeError (the only
exception the source catches), or any other exception. -/
inductive GeoResult where
  | ok (address : String)
  | typeError
  | otherError
deriving Repr, DecidableEq

/-- An address-resolution collaborator: called with the record's latitude
and longitude fields (the source interpolates them into one query string). -/
def Resolver : Type := Option Rat → Option Rat → GeoResult

/-- Embedding of the FileReport record (src/pic2pin.py lines 19-34). -/
structure FileReport where
  digest : String
  paths : List String
  latitude : Option Rat
  longitude : Option Rat
  altitude : Option Rat
  address : String
deriving Repr, DecidableEq

/-- Python string subscript `paths[0]`: IndexError on an empty list. -/
def pyHead (paths : List String) : Except PyErr String :=
  match paths with
  | p :: _ => .ok p
  | [] => .error .indexError

/-- Embedding of `FileReport.__init__` (src/pic2pin.py lines 20-34).
`exif` models the external collaborators reading and parsing the file at a
path into its EXIF header; `geoloc` is the optional resolver. Besides the
constructed report, the result carries the list of paths the GPS extractor
was invoked on and the list of queries sent to the resolver, so that
theorems can state how often each collaborator is called. The resolver is
invoked exactly when `geoloc` is supplied and the latitude is not None; only
a TypeError from it is caught (leaving the address empty), any other
exception propagates. -/
def FileReport.init (exif : String → Header) (geoloc : Option Resolver)
    (digest : String) (paths : List String) :
    Except PyErr (FileReport × List String × List (Option Rat × Option Rat)) := do
  let p0 ← pyHead paths
  let gps ← grab_gps (exif p0)
  let latitude := gps.latitude
  let longitude := gps.longitude
  let altitude := gps.altitude
  match geoloc, latitude with
  | some g, some _ =>
      match g latitude longitude with
      | .ok a =>
          pure (⟨digest, paths, latitude, longitude, altitude, a⟩, [p0],
                [(latitude, longitude)])
      | .typeError =>
          pure (⟨digest, paths, latitude, longitude, altitude, ""⟩, [p0],
                [(latitude, longitude)])
      | .otherError => .error .geoError
  | _, _ =>
      pure (⟨digest, paths, latitude, longitude, altitude, ""⟩, [p0], [])

/-- The external collaborators of the scan phase: `imghdr.what`-based type
recognition, and `md5` (src/pic2pin.py lines 82-89), whose body is file I/O
plus hashlib and which raises an I/O error when the file cannot be read.
Neither `md5` nor its caller has an exception handler in the source. -/
structure ScanEnv where
  is_valid_file : String → Bool
  md5 : String → Except PyErr String

/-- Python truthiness of `hashdict.get(digest)`: a present, non-empty list. -/
def dictGetTruthy (d : List (String × List String)) (k : String) : Bool :=
  match (d.find? (fun p => p.1 == k)).map (fun p => p.2) with
  | some l => !l.isEmpty
  | none => false

/-- Python `hashdict[digest].append(full_path)`: append to the existing
entry, keeping dict insertion order. -/
def dictAppend (d : List (String × List String)) (k : String) (path : String) :
    List (String × List String) :=
  d.map (fun p => if p.1 == k then (p.1, p.2 ++ [path]) else p)

/-- Python `hashdict[digest] = [full_path]`: overwrite in place when the key
exists, otherwise add the new key at the end (dict insertion order). -/
def dictSet (d : List (String × List String)) (k : String) (v : List String) :
    List (String × List String) :=
  if d.any (fun p => p.1 == k) then
    d.map (fun p => if p.1 == k then (p.1, v) else p)
  else
    d ++ [(k, v)]

/-- One iteration of the loop body of `initialize_files`
(src/pic2pin.py lines 121-127): skip unsupported files, hash the others,
and group the path under its digest. An error from `md5` propagates. -/
def initFilesStep (env : ScanEnv) (hashdict : List (String × List String))
    (path : String) : Except PyErr (List (String × List String)) :=
  if env.is_valid_file path then do
    let digest ← env.md5 path
    if dictGetTruthy hashdict digest then
      pure (dictAppend hashdict digest path)
    else
      pure (dictSet hashdict digest [path])
  else
    pure hashdict

/-- Embedding of `initialize_files` (src/pic2pin.py lines 98-128) on the
branch taking an explicit list of candidate paths; the directory branch
enumerates candidates through the external `os.walk` and then runs the same
per-file body. The accumulator is threaded left to right over the
candidates in discovery order. -/
def initialize_files_from (env : ScanEnv)
    (hashdict : List (String × List String)) :
    List String → Except PyErr (List (String × List String))
  | [] => .ok hashdict
  | path :: rest => do
      let d ← initFilesStep env hashdict path
      initialize_files_from env d rest

/-- `initialize_files` started from the empty dictionary. -/
def initialize_files (env : ScanEnv) (paths : List String) :
    Except PyErr (List (String × List String)) :=
  initialize_files_from env [] paths

/-- Python truthiness of an optional float: None and 0.0 are falsy
(`not file_report.latitude` in the source). -/
def falsyOpt (x : Option Rat) : Bool :=
  match x with
  | none => true
  | some v => v == 0

/-- The discard condition of the report loop (src/pic2pin.py line 223):
`ignore and not latitude and not longitude and not altitude`. -/
def skipReport (ignore : Bool) (r : FileReport) : Bool :=
  ignore && falsyOpt r.latitude && falsyOpt r.longitude && falsyOpt r.altitude

/-- Embedding of the report-building loop of `main`
(src/pic2pin.py lines 221-226): one FileReport per digest group, in group
order, dropping those that satisfy the discard condition. -/
def buildReports (exif : String → Header) (geoloc : Option Resolver)
    (ignore : Bool) :
    List (String × List String) → Except PyErr (List FileReport)
  | [] => .ok []
  | (digest, paths) :: rest => do
      let res ← FileReport.init exif geoloc digest paths
      let tail ← buildReports exif geoloc ignore rest
      if skipReport ignore res.1 then
        pure tail
      else
        pure (res.1 :: tail)

section Helpers

/-- Evaluation of the converter on a value list with non-zero denominators. -/
theorem ifdtag_to_decimal_eval (d m s : RatPair) (rest : List RatPair)
    (pr : String) (iv : Option Int)
    (hd : d.den ≠ 0) (hm : m.den ≠ 0) (hs : s.den ≠ 0) :
    ifdtag_to_decimal ⟨d :: m :: s :: rest, pr, iv⟩ =
      .ok ((d.num : Rat) / (d.den : Rat) + (m.num : Rat) / (m.den : Rat) / 60
        + (s.num : Rat) / (s.den : Rat) / 3600) := by
  simp [ifdtag_to_decimal, pyIndex, pyDiv, hd, hm, hs, Bind.bind, Except.bind,
    Functor.map, Except.map, pure, Except.pure]

/-- When either magnitude tag is absent the latitude/longitude block is
skipped and stores nothing. -/
theorem latlongPart_none (h : Header)
    (hl : h.get "GPS GPSLatitude" = none ∨ h.get "GPS GPSLongitude" = none) :
    latlongPart h = .ok none := by
  unfold latlongPart
  rcases hl with hl | hl <;>
    cases hlat : h.get "GPS GPSLatitude" <;>
    cases hlong : h.get "GPS GPSLongitude" <;>
    simp_all [pure, Except.pure]

/-- Successful run of the latitude/longitude block with both reference tags
present. -/
theorem latlongPart_some (h : Header) (lt lg latRef longRef : IfdTag)
    (la lo : Rat)
    (hlt : h.get "GPS GPSLatitude" = some lt)
    (hlg : h.get "GPS GPSLongitude" = some lg)
    (hla : ifdtag_to_decimal lt = .ok la)
    (hlo : ifdtag_to_decimal lg = .ok lo)
    (hr1 : h.get "GPS GPSLatitudeRef" = some latRef)
    (hr2 : h.get "GPS GPSLongitudeRef" = some longRef) :
    latlongPart h = .ok (some
      ((if latRef.printable == "S" then la * (-1) else la),
       (if longRef.printable == "W" then lo * (-1) else lo))) := by
  simp [latlongPart, hlt, hlg, hla, hlo, Header.getItem, hr1, hr2,
    Bind.bind, Except.bind, pure, Except.pure]

/-- A missing latitude reference tag raises KeyError once both magnitudes
have been converted. -/
theorem latlongPart_keyError (h : Header) (lt lg : IfdTag) (la lo : Rat)
    (hlt : h.get "GPS GPSLatitude" = some lt)
    (hlg : h.get "GPS GPSLongitude" = some lg)
    (hla : ifdtag_to_decimal lt = .ok la)
    (hlo : ifdtag_to_decimal lg = .ok lo)
    (hr1 : h.get "GPS GPSLatitudeRef" = none) :
    latlongPart h = .error (.keyError "GPS GPSLatitudeRef") := by
  simp [latlongPart, hlt, hlg, hla, hlo, Header.getItem, hr1,
    Bind.bind, Except.bind, pure, Except.pure]

/-- With no altitude tag the altitude block stores nothing. -/
theorem altPart_absent (h : Header) (ha : h.get "GPS GPSAltitude" = none) :
    altPart h = .ok none := by
  simp [altPart, ha, pure, Except.pure]

/-- Successful run of the altitude block with the reference tag present. -/
theorem altPart_some (h : Header) (t altRef : IfdTag) (r : RatPair)
    (ht : h.get "GPS GPSAltitude" = some t) (hv : t.values[0]? = some r)
    (hden : r.den ≠ 0) (href : h.get "GPS GPSAltitudeRef" = some altRef) :
    altPart h = .ok (some (if altRef.eqInt 1
      then ((r.num : Rat) / (r.den : Rat)) * (-1)
      else (r.num : Rat) / (r.den : Rat))) := by
  simp [altPart, ht, pyIndex, hv, pyDiv, hden, Header.getItem, href,
    Bind.bind, Except.bind, pure, Except.pure]

/-- A missing altitude reference tag raises KeyError once the altitude has
been decoded. -/
theorem altPart_keyError (h : Header) (t : IfdTag) (r : RatPair)
    (ht : h.get "GPS GPSAltitude" = some t) (hv : t.values[0]? = some r)
    (hden : r.den ≠ 0) (href : h.get "GPS GPSAltitudeRef" = none) :
    altPart h = .error (.keyError "GPS GPSAltitudeRef") := by
  simp [altPart, ht, pyIndex, hv, pyDiv, hden, Header.getItem, href,
    Bind.bind, Except.bind, pure, Except.pure]

/-- `grab_gps` assembles the results of its two blocks. -/
theorem grab_gps_ok (h : Header) (ll : Option (Rat × Rat)) (alt : Option Rat)
    (h1 : latlongPart h = .ok ll) (h2 : altPart h = .ok alt) :
    grab_gps h = .ok (match ll with
      | some p => { latitude := some p.1, longitude := some p.2, altitude := alt }
      | none => { latitude := none, longitude := none, altitude := alt }) := by
  cases ll <;> simp [grab_gps, h1, h2, Bind.bind, Except.bind, pure, Except.pure]

/-- An exception in the latitude/longitude block propagates out of
`grab_gps`. -/
theorem grab_gps_err_latlong (h : Header) (e : PyErr)
    (h1 : latlongPart h = .error e) : grab_gps h = .error e := by
  simp [grab_gps, h1, Bind.bind, Except.bind]

/-- An exception in the altitude block propagates out of `grab_gps`. -/
theorem grab_gps_err_alt (h : Header) (ll : Option (Rat × Rat)) (e : PyErr)
    (h1 : latlongPart h = .ok ll) (h2 : altPart h = .error e) :
    grab_gps h = .error e := by
  simp [grab_gps, h1, h2, Bind.bind, Except.bind]

/-- Inversion: a successful `grab_gps` comes from successful runs of both
blocks and has the assembled shape. -/
theorem grab_gps_ok_inv (h : Header) (m : GpsMeta)
    (hm : grab_gps h = .ok m) :
    ∃ ll alt, latlongPart h = .ok ll ∧ altPart h = .ok alt ∧
      m = (match ll with
        | some p => { latitude := some p.1, longitude := some p.2, altitude := alt }
        | none => { latitude := none, longitude := none, altitude := alt }) := by
  cases h1 : latlongPart h with
  | error e => simp [grab_gps, h1, Bind.bind, Except.bind] at hm
  | ok ll =>
    cases h2 : altPart h with
    | error e => simp [grab_gps, h1, h2, Bind.bind, Except.bind] at hm
    | ok alt =>
      refine ⟨ll, alt, rfl, rfl, ?_⟩
      cases ll <;>
        simp_all [grab_gps, h1, h2, Bind.bind, Except.bind, pure, Except.pure]

end Helpers

/-- C1: for every RationalAngle triple of (numerator, denominator) pairs with
all three denominators non-zero, the rational-to-decimal converter returns
deg_num/deg_den + min_num/min_den/60 + sec_num/sec_den/3600 (exactly, in the
idealised rational semantics). -/
theorem ifdtag_to_decimal_formula (d m s : RatPair) (rest : List RatPair)
    (pr : String) (iv : Option Int)
    (hd : d.den ≠ 0) (hm : m.den ≠ 0) (hs : s.den ≠ 0) :
    ifdtag_to_decimal ⟨d :: m :: s :: rest, pr, iv⟩ =
      .ok ((d.num : Rat) / (d.den : Rat) + (m.num : Rat) / (m.den : Rat) / 60
        + (s.num : Rat) / (s.den : Rat) / 3600) :=
  ifdtag_to_decimal_eval d m s rest pr iv hd hm hs

/-- Witness for C1 at the spec's example: degrees (48,1), minutes (16,1),
seconds (579,100). -/
theorem ifdtag_to_decimal_formula_witness :
    ifdtag_to_decimal ⟨[⟨48, 1⟩, ⟨16, 1⟩, ⟨579, 100⟩], "", none⟩ =
      .ok (((48 : Int) : Rat) / ((1 : Int) : Rat)
        + ((16 : Int) : Rat) / ((1 : Int) : Rat) / 60
        + ((579 : Int) : Rat) / ((100 : Int) : Rat) / 3600) :=
  ifdtag_to_decimal_formula ⟨48, 1⟩ ⟨16, 1⟩ ⟨579, 100⟩ [] "" none
    (by decide) (by decide) (by decide)

/-- A degree/minute/second magnitude tag with integral components. -/
def tagDms (a b c : Int) : IfdTag :=
  ⟨[⟨a, 1⟩, ⟨b, 1⟩, ⟨c, 1⟩], "", none⟩

/-- A hemisphere reference tag with the given printable value. -/
def refTag (s : String) : IfdTag :=
  ⟨[], s, none⟩

/-- A header with both magnitude tags but neither reference tag. -/
def hdrNoRef : Header :=
  ⟨[("GPS GPSLatitude", tagDms 1 2 3), ("GPS GPSLongitude", tagDms 4 5 6)]⟩

/-- Counterexample for C2 as stated: a header carrying latitude and
longitude magnitude tags but no latitude reference tag makes the extractor
raise KeyError instead of leaving the magnitudes positive. -/
theorem grab_gps_absent_ref_raises :
    grab_gps hdrNoRef = .error (.keyError "GPS GPSLatitudeRef") :=
  grab_gps_err_latlong hdrNoRef _
    (latlongPart_keyError hdrNoRef (tagDms 1 2 3) (tagDms 4 5 6) _ _
      rfl rfl
      (ifdtag_to_decimal_eval ⟨1, 1⟩ ⟨2, 1⟩ ⟨3, 1⟩ [] "" none
        (by decide) (by decide) (by decide))
      (ifdtag_to_decimal_eval ⟨4, 1⟩ ⟨5, 1⟩ ⟨6, 1⟩ [] "" none
        (by decide) (by decide) (by decide))
      rfl)

/-- C2 (amended): for a header with both magnitude tags present and both
conversions successful, when both reference tags are present the extractor
negates the latitude exactly when the latitude reference printable is the
exact string "S" and the longitude exactly when the longitude reference
printable is the exact string "W" (any other present value leaves the
magnitude unchanged); when the latitude reference tag is absent the
extractor raises KeyError instead of treating the magnitude as positive. -/
theorem grab_gps_hemisphere (h : Header) (lt lg : IfdTag) (la lo : Rat)
    (hlt : h.get "GPS GPSLatitude" = some lt)
    (hlg : h.get "GPS GPSLongitude" = some lg)
    (hla : ifdtag_to_decimal lt = .ok la)
    (hlo : ifdtag_to_decimal lg = .ok lo) :
    (∀ latRef longRef : IfdTag,
      h.get "GPS GPSLatitudeRef" = some latRef →
      h.get "GPS GPSLongitudeRef" = some longRef →
      ∀ m : GpsMeta, grab_gps h = .ok m →
        m.latitude = some (if latRef.printable == "S" then la * (-1) else la) ∧
        m.longitude = some (if longRef.printable == "W" then lo * (-1) else lo))
    ∧ (h.get "GPS GPSLatitudeRef" = none →
        grab_gps h = .error (.keyError "GPS GPSLatitudeRef")) := by
  constructor
  · intro latRef longRef hr1 hr2 m hm
    obtain ⟨ll, alt, h1, h2, hshape⟩ := grab_gps_ok_inv h m hm
    have hll := latlongPart_some h lt lg latRef longRef la lo hlt hlg hla hlo hr1 hr2
    rw [h1] at hll
    simp only [Except.ok.injEq] at hll
    subst hll
    subst hshape
    simp
  · intro hr1
    exact grab_gps_err_latlong h _
      (latlongPart_keyError h lt lg la lo hlt hlg hla hlo hr1)

/-- A header at 10 degrees south, 20 degrees east. -/
def hdrSE : Header :=
  ⟨[("GPS GPSLatitude", tagDms 10 0 0), ("GPS GPSLongitude", tagDms 20 0 0),
    ("GPS GPSLatitudeRef", refTag "S"), ("GPS GPSLongitudeRef", refTag "E")]⟩

/-- Witness for the amended C2 at a concrete southern/eastern header. -/
theorem grab_gps_hemisphere_witness :
    (∀ latRef longRef : IfdTag,
      Header.get hdrSE "GPS GPSLatitudeRef" = some latRef →
      Header.get hdrSE "GPS GPSLongitudeRef" = some longRef →
      ∀ m : GpsMeta, grab_gps hdrSE = .ok m →
        m.latitude = some (if latRef.printable == "S"
          then (((10 : Int) : Rat) / ((1 : Int) : Rat)
            + ((0 : Int) : Rat) / ((1 : Int) : Rat) / 60
            + ((0 : Int) : Rat) / ((1 : Int) : Rat) / 3600) * (-1)
          else ((10 : Int) : Rat) / ((1 : Int) : Rat)
            + ((0 : Int) : Rat) / ((1 : Int) : Rat) / 60
            + ((0 : Int) : Rat) / ((1 : Int) : Rat) / 3600) ∧
        m.longitude = some (if longRef.printable == "W"
          then (((20 : Int) : Rat) / ((1 : Int) : Rat)
            + ((0 : Int) : Rat) / ((1 : Int) : Rat) / 60
            + ((0 : Int) : Rat) / ((1 : Int) : Rat) / 3600) * (-1)
          else ((20 : Int) : Rat) / ((1 : Int) : Rat)
            + ((0 : Int) : Rat) / ((1 : Int) : Rat) / 60
            + ((0 : Int) : Rat) / ((1 : Int) : Rat) / 3600))
    ∧ (Header.get hdrSE "GPS GPSLatitudeRef" = none →
        grab_gps hdrSE = .error (.keyError "GPS GPSLatitudeRef")) :=
  grab_gps_hemisphere hdrSE (tagDms 10 0 0) (tagDms 20 0 0) _ _
    rfl rfl
    (ifdtag_to_decimal_eval ⟨10, 1⟩ ⟨0, 1⟩ ⟨0, 1⟩ [] "" none
      (by decide) (by decide) (by decide))
    (ifdtag_to_decimal_eval ⟨20, 1⟩ ⟨0, 1⟩ ⟨0, 1⟩ [] "" none
      (by decide) (by decide) (by decide))

/-- C3: for every header, a successful run of the GPS extractor yields
latitude and longitude either both present or both absent, and when either
magnitude tag is missing neither field is populated (altitude is filled
independently). -/
theorem grab_gps_latlong_together (h : Header) (m : GpsMeta)
    (hm : grab_gps h = .ok m) :
    (m.latitude.isSome ↔ m.longitude.isSome) ∧
      ((h.get "GPS GPSLatitude" = none ∨ h.get "GPS GPSLongitude" = none) →
        m.latitude = none ∧ m.longitude = none) := by
  obtain ⟨ll, alt, h1, h2, hshape⟩ := grab_gps_ok_inv h m hm
  constructor
  · subst hshape
    cases ll <;> simp
  · intro hmiss
    have hnone := latlongPart_none h hmiss
    rw [h1] at hnone
    simp only [Except.ok.injEq] at hnone
    subst hnone
    subst hshape
    simp

/-- Witness for C3 at the empty header. -/
theorem grab_gps_latlong_together_witness :
    (((⟨none, none, none⟩ : GpsMeta).latitude).isSome ↔
      ((⟨none, none, none⟩ : GpsMeta).longitude).isSome) ∧
      ((Header.get ⟨[]⟩ "GPS GPSLatitude" = none ∨
          Header.get ⟨[]⟩ "GPS GPSLongitude" = none) →
        (⟨none, none, none⟩ : GpsMeta).latitude = none ∧
          (⟨none, none, none⟩ : GpsMeta).longitude = none) :=
  grab_gps_latlong_together ⟨[]⟩ ⟨none, none, none⟩ rfl

/-- Inversion for a successful FileReport construction: the paths were
non-empty, the extractor succeeded on the first path and its result fills
the coordinate fields, and the extractor was invoked exactly on that path. -/
theorem fileReport_init_ok_inv (exif : String → Header)
    (geoloc : Option Resolver) (digest : String) (paths : List String)
    (r : FileReport) (l : List String) (q : List (Option Rat × Option Rat))
    (h : FileReport.init exif geoloc digest paths = .ok (r, l, q)) :
    ∃ p0 rest meta, paths = p0 :: rest ∧ grab_gps (exif p0) = .ok meta ∧
      r.digest = digest ∧ r.paths = paths ∧ r.latitude = meta.latitude ∧
      r.longitude = meta.longitude ∧ r.altitude = meta.altitude ∧
      l = [p0] := by
  cases paths with
  | nil => simp [FileReport.init, pyHead, Bind.bind, Except.bind] at h
  | cons p0 rest =>
    cases hg : grab_gps (exif p0) with
    | error e => simp [FileReport.init, pyHead, hg, Bind.bind, Except.bind] at h
    | ok meta =>
      refine ⟨p0, rest, meta, rfl, hg, ?_⟩
      cases geoloc with
      | none =>
        simp only [FileReport.init, pyHead, hg, Bind.bind, Except.bind,
          pure, Except.pure, Except.ok.injEq, Prod.mk.injEq] at h
        obtain ⟨hr, hl, hq⟩ := h
        subst hr
        subst hl
        simp
      | some g =>
        cases hlat : meta.latitude with
        | none =>
          simp only [FileReport.init, pyHead, hg, hlat, Bind.bind,
            Except.bind, pure, Except.pure, Except.ok.injEq,
            Prod.mk.injEq] at h
          obtain ⟨hr, hl, hq⟩ := h
          subst hr
          subst hl
          simp [hlat]
        | some la =>
          simp only [FileReport.init, pyHead, hg, hlat, Bind.bind,
            Except.bind, pure, Except.pure] at h
          cases hres : g (some la) meta.longitude with
          | ok a =>
            rw [hres] at h
            simp only [Except.ok.injEq, Prod.mk.injEq] at h
            obtain ⟨hr, hl, hq⟩ := h
            subst hr
            subst hl
            simp [hlat]
          | typeError =>
            rw [hres] at h
            simp only [Except.ok.injEq, Prod.mk.injEq] at h
            obtain ⟨hr, hl, hq⟩ := h
            subst hr
            subst hl
            simp [hlat]
          | otherError =>
            rw [hres] at h
            simp at h

/-- C8: for a FileGroup (digest, paths), the assembler invokes the GPS
extractor exactly once, on the first path of the group, and the report loop
produces exactly one record for the group, listing every path of the
group. -/
theorem assembler_extracts_once (exif : String → Header)
    (geoloc : Option Resolver) (digest p0 : String) (rest : List String)
    (r : FileReport) (l : List String) (q : List (Option Rat × Option Rat))
    (h : FileReport.init exif geoloc digest (p0 :: rest) = .ok (r, l, q)) :
    l = [p0] ∧ r.paths = p0 :: rest ∧
      buildReports exif geoloc false [(digest, p0 :: rest)] = .ok [r] := by
  obtain ⟨p0', rest', meta, heq, hg, hdig, hpaths, hla, hlo, hal, hl⟩ :=
    fileReport_init_ok_inv exif geoloc digest (p0 :: rest) r l q h
  obtain ⟨he1, he2⟩ := List.cons.inj heq
  subst he1
  refine ⟨hl, hpaths, ?_⟩
  simp [buildReports, h, skipReport, Bind.bind, Except.bind, pure, Except.pure]

/-- Witness for C8: a three-path group with a metadata-free representative. -/
theorem assembler_extracts_once_witness :
    (["p1"] : List String) = ["p1"] ∧
      (⟨"d", ["p1", "p2", "p3"], none, none, none, ""⟩ : FileReport).paths =
        "p1" :: ["p2", "p3"] ∧
      buildReports (fun _ => ⟨[]⟩) none false [("d", "p1" :: ["p2", "p3"])] =
        .ok [⟨"d", ["p1", "p2", "p3"], none, none, none, ""⟩] :=
  assembler_extracts_once (fun _ => ⟨[]⟩) none "d" "p1" ["p2", "p3"]
    ⟨"d", ["p1", "p2", "p3"], none, none, none, ""⟩ ["p1"] [] rfl

/-- C10: when the representative file's header has no altitude tag, a
successfully constructed record's altitude field is absent (None), never
defaulted to zero. -/
theorem record_altitude_absent (exif : String → Header)
    (geoloc : Option Resolver) (digest p0 : String) (paths : List String)
    (r : FileReport) (l : List String) (q : List (Option Rat × Option Rat))
    (hp : paths.head? = some p0)
    (halt : (exif p0).get "GPS GPSAltitude" = none)
    (h : FileReport.init exif geoloc digest paths = .ok (r, l, q)) :
    r.altitude = none := by
  obtain ⟨p0', rest', meta, heq, hg, hdig, hpaths, hla, hlo, hal, hl⟩ :=
    fileReport_init_ok_inv exif geoloc digest paths r l q h
  subst heq
  simp only [List.head?_cons, Option.some.injEq] at hp
  subst hp
  obtain ⟨ll, alt, h1, h2, hshape⟩ := grab_gps_ok_inv _ _ hg
  rw [altPart_absent _ halt] at h2
  simp only [Except.ok.injEq] at h2
  subst h2
  rw [hal, hshape]
  cases ll <;> simp

/-- Witness for C10 at a header with no tags at all. -/
theorem record_altitude_absent_witness :
    (⟨"d", ["p"], none, none, none, ""⟩ : FileReport).altitude = none :=
  record_altitude_absent (fun _ => ⟨[]⟩) none "d" "p" ["p"]
    ⟨"d", ["p"], none, none, none, ""⟩ ["p"] [] rfl rfl rfl

/-- A header at 10 degrees north, 20 degrees east, no altitude. -/
def hdrNE : Header :=
  ⟨[("GPS GPSLatitude", tagDms 10 0 0), ("GPS GPSLongitude", tagDms 20 0 0),
    ("GPS GPSLatitudeRef", refTag "N"), ("GPS GPSLongitudeRef", refTag "E")]⟩

/-- The decimal latitude the converter produces for `tagDms 10 0 0`. -/
def laNE : Rat :=
  ((10 : Int) : Rat) / ((1 : Int) : Rat)
    + ((0 : Int) : Rat) / ((1 : Int) : Rat) / 60
    + ((0 : Int) : Rat) / ((1 : Int) : Rat) / 3600

/-- The decimal longitude the converter produces for `tagDms 20 0 0`. -/
def loNE : Rat :=
  ((20 : Int) : Rat) / ((1 : Int) : Rat)
    + ((0 : Int) : Rat) / ((1 : Int) : Rat) / 60
    + ((0 : Int) : Rat) / ((1 : Int) : Rat) / 3600

/-- The extractor's result on `hdrNE`. -/
def metaNE : GpsMeta := ⟨some laNE, some loNE, none⟩

/-- A resolver whose call always fails with an exception other than
TypeError (a network failure, say). -/
def errResolver : Resolver := fun _ _ => .otherError

/-- A resolver whose call always fails with TypeError. -/
def trResolver : Resolver := fun _ _ => .typeError

/-- Counterexample for C7 as stated: with a resolver failing with an
exception other than TypeError, the record is not produced — the failure
propagates out of the constructor. -/
theorem resolver_other_error_aborts :
    FileReport.init (fun _ => hdrNE) (some errResolver) "d" ["p"] =
      .error .geoError := rfl

/-- C7 (amended): when a resolver is supplied and the extracted latitude is
present, the constructor invokes the resolver exactly once; a successful
call attaches the returned address, a TypeError failure is caught and
leaves the address empty, and any other failure propagates and aborts the
record's construction. -/
theorem resolver_failure_isolated (exif : String → Header) (g : Resolver)
    (digest p0 : String) (rest : List String) (meta : GpsMeta) (la : Rat)
    (hg : grab_gps (exif p0) = .ok meta) (hlat : meta.latitude = some la) :
    (∀ a, g meta.latitude meta.longitude = .ok a →
      FileReport.init exif (some g) digest (p0 :: rest) =
        .ok (⟨digest, p0 :: rest, meta.latitude, meta.longitude,
              meta.altitude, a⟩, [p0], [(meta.latitude, meta.longitude)]))
    ∧ (g meta.latitude meta.longitude = .typeError →
      FileReport.init exif (some g) digest (p0 :: rest) =
        .ok (⟨digest, p0 :: rest, meta.latitude, meta.longitude,
              meta.altitude, ""⟩, [p0], [(meta.latitude, meta.longitude)]))
    ∧ (g meta.latitude meta.longitude = .otherError →
      FileReport.init exif (some g) digest (p0 :: rest) =
        .error .geoError) := by
  refine ⟨?_, ?_, ?_⟩
  · intro a hres
    rw [hlat] at hres
    simp [FileReport.init, pyHead, hg, hlat, hres, Bind.bind, Except.bind,
      pure, Except.pure]
  · intro hres
    rw [hlat] at hres
    simp [FileReport.init, pyHead, hg, hlat, hres, Bind.bind, Except.bind,
      pure, Except.pure]
  · intro hres
    rw [hlat] at hres
    simp [FileReport.init, pyHead, hg, hlat, hres, Bind.bind, Except.bind,
      pure, Except.pure]

/-- Witness for the amended C7 with a TypeError-failing resolver on a
header with a present latitude. -/
theorem resolver_failure_isolated_witness :
    ((∀ a, trResolver metaNE.latitude metaNE.longitude = .ok a →
      FileReport.init (fun _ => hdrNE) (some trResolver) "d" ("p" :: []) =
        .ok (⟨"d", "p" :: [], metaNE.latitude, metaNE.longitude,
              metaNE.altitude, a⟩, ["p"],
             [(metaNE.latitude, metaNE.longitude)]))
    ∧ (trResolver metaNE.latitude metaNE.longitude = .typeError →
      FileReport.init (fun _ => hdrNE) (some trResolver) "d" ("p" :: []) =
        .ok (⟨"d", "p" :: [], metaNE.latitude, metaNE.longitude,
              metaNE.altitude, ""⟩, ["p"],
             [(metaNE.latitude, metaNE.longitude)]))
    ∧ (trResolver metaNE.latitude metaNE.longitude = .otherError →
      FileReport.init (fun _ => hdrNE) (some trResolver) "d" ("p" :: []) =
        .error .geoError)) :=
  resolver_failure_isolated (fun _ => hdrNE) trResolver "d" "p" [] metaNE
    laNE rfl rfl

/-- A header at exactly latitude 0.0, longitude 0.0, no altitude. -/
def hdrZZ : Header :=
  ⟨[("GPS GPSLatitude", tagDms 0 0 0), ("GPS GPSLongitude", tagDms 0 0 0),
    ("GPS GPSLatitudeRef", refTag "N"), ("GPS GPSLongitudeRef", refTag "E")]⟩

/-- The decimal value the converter produces for `tagDms 0 0 0`. -/
def laZ : Rat :=
  ((0 : Int) : Rat) / ((1 : Int) : Rat)
    + ((0 : Int) : Rat) / ((1 : Int) : Rat) / 60
    + ((0 : Int) : Rat) / ((1 : Int) : Rat) / 3600

/-- Counterexample for C4 as stated: with the skip-if-no-location option
set, a record whose latitude and longitude are present with the value 0.0
is discarded (Python truthiness treats 0.0 as no data), not kept. -/
theorem ignore_discards_zero_coordinates :
    buildReports (fun _ => hdrZZ) none true [("d", ["p"])] = .ok [] := by
  have hinit : FileReport.init (fun _ => hdrZZ) none "d" ["p"] =
      .ok (⟨"d", ["p"], some laZ, some laZ, none, ""⟩, ["p"], []) := rfl
  have hz : laZ = 0 := by norm_num [laZ]
  simp [buildReports, hinit, skipReport, falsyOpt, hz, Bind.bind,
    Except.bind, pure, Except.pure]

/-- C4 (amended): with the skip-if-no-location option set, exactly those
records all three of whose coordinate fields are falsy — absent or equal to
0.0 (Python truthiness) — are discarded before formatting, relative to the
sequence the loop produces without the option; every record with at least
one present, non-zero field is kept. -/
theorem buildReports_ignore_filter (exif : String → Header)
    (geoloc : Option Resolver) (groups : List (String × List String))
    (all : List FileReport)
    (h : buildReports exif geoloc false groups = .ok all) :
    buildReports exif geoloc true groups = .ok
      (all.filter (fun r => !(falsyOpt r.latitude && falsyOpt r.longitude
        && falsyOpt r.altitude))) := by
  induction groups generalizing all with
  | nil =>
    simp only [buildReports, Except.ok.injEq] at h
    subst h
    simp [buildReports]
  | cons g rest ih =>
    obtain ⟨digest, paths⟩ := g
    cases hi : FileReport.init exif geoloc digest paths with
    | error e => simp [buildReports, hi, Bind.bind, Except.bind] at h
    | ok res =>
      cases ht : buildReports exif geoloc false rest with
      | error e => simp [buildReports, hi, ht, Bind.bind, Except.bind] at h
      | ok tail =>
        have hall : all = res.1 :: tail := by
          simp [buildReports, hi, ht, skipReport, Bind.bind, Except.bind,
            pure, Except.pure] at h
          exact h.symm
        subst hall
        have ihr := ih tail ht
        cases hf : (falsyOpt res.1.latitude && falsyOpt res.1.longitude
            && falsyOpt res.1.altitude) <;>
          simp [buildReports, hi, ihr, skipReport, hf, Bind.bind,
            Except.bind, pure, Except.pure, List.filter]

/-- Witness for the amended C4: a single group at a non-zero location is
kept by the filter. -/
theorem buildReports_ignore_filter_witness :
    buildReports (fun _ => hdrNE) none true [("d", ["p"])] =
      .ok (([⟨"d", ["p"], some laNE, some loNE, none, ""⟩] :
          List FileReport).filter
        (fun r => !(falsyOpt r.latitude && falsyOpt r.longitude
          && falsyOpt r.altitude))) :=
  buildReports_ignore_filter (fun _ => hdrNE) none [("d", ["p"])]
    [⟨"d", ["p"], some laNE, some loNE, none, ""⟩] rfl

/-- Splitting the scan at any point: the dictionary built over a prefix of
the candidates is threaded into the scan of the remainder. -/
theorem initialize_files_from_append (env : ScanEnv)
    (d : List (String × List String)) (xs ys : List String) :
    initialize_files_from env d (xs ++ ys) =
      (initialize_files_from env d xs).bind
        (fun d2 => initialize_files_from env d2 ys) := by
  induction xs generalizing d with
  | nil => simp [initialize_files_from, Except.bind]
  | cons x xs ih =>
    simp only [List.cons_append, initialize_files_from, Bind.bind]
    cases hs : initFilesStep env d x with
    | error e => simp [hs, Except.bind]
    | ok d2 => simp [hs, Except.bind, ih]

/-- A scan environment where every file is a supported image, the file at
path "a" cannot be read, and every other file hashes to "h". -/
def envIO : ScanEnv :=
  ⟨fun _ => true, fun p => if p == "a" then .error (.ioError "a") else .ok "h"⟩

/-- Counterexample for C5 as stated: when hashing the first of two
candidates fails with an I/O error, the whole scan aborts with that error —
the second candidate is never processed and no result dictionary is
produced. -/
theorem scan_io_error_aborts :
    initialize_files envIO ["a", "b"] = .error (.ioError "a") := rfl

/-- C5 (amended): an I/O failure while hashing a supported candidate file
propagates out of `initialize_files` and aborts the whole scan with that
error, regardless of how many candidates were already grouped and of how
many remain; the failure is not isolated to the failing file. -/
theorem initialize_files_io_aborts (env : ScanEnv) (pre post : List String)
    (path : String) (e : PyErr) (d : List (String × List String))
    (hvalid : env.is_valid_file path = true)
    (herr : env.md5 path = .error e)
    (hpre : initialize_files env pre = .ok d) :
    initialize_files env (pre ++ path :: post) = .error e := by
  unfold initialize_files at hpre ⊢
  rw [initialize_files_from_append, hpre]
  simp [Except.bind, initialize_files_from, initFilesStep, hvalid, herr,
    Bind.bind]

/-- Witness for the amended C5: the failing file aborts the scan before the
remaining candidate is reached. -/
theorem initialize_files_io_aborts_witness :
    initialize_files envIO ([] ++ "a" :: ["b"]) = .error (.ioError "a") :=
  initialize_files_io_aborts envIO [] ["b"] "a" (.ioError "a") []
    rfl rfl rfl

/-- A header whose latitude degrees rational has a zero denominator. -/
def hdrZeroDen : Header :=
  ⟨[("GPS GPSLatitude", ⟨[⟨1, 0⟩, ⟨0, 1⟩, ⟨0, 1⟩], "", none⟩),
    ("GPS GPSLongitude", tagDms 1 2 3),
    ("GPS GPSLatitudeRef", refTag "N"), ("GPS GPSLongitudeRef", refTag "E")]⟩

/-- Counterexample for C6 as stated: a zero denominator in the latitude
triple makes the extractor fail with the division-by-zero error instead of
leaving the field absent. -/
theorem zero_denominator_crashes :
    grab_gps hdrZeroDen = .error .zeroDivisionError := rfl

/-- C6 (amended): when any denominator of the latitude degree/minute/second
triple is zero (and both magnitude tags are present), the division-by-zero
error propagates out of the extractor — processing of that file crashes
rather than treating the tag as corrupt and leaving the field absent. -/
theorem zero_denominator_propagates (h : Header) (lg : IfdTag)
    (d m s : RatPair) (rest : List RatPair) (pr : String) (iv : Option Int)
    (hlt : h.get "GPS GPSLatitude" = some ⟨d :: m :: s :: rest, pr, iv⟩)
    (hlg : h.get "GPS GPSLongitude" = some lg)
    (hz : d.den = 0 ∨ m.den = 0 ∨ s.den = 0) :
    grab_gps h = .error .zeroDivisionError := by
  apply grab_gps_err_latlong
  by_cases hd : d.den = 0
  · simp [latlongPart, hlt, hlg, ifdtag_to_decimal, pyIndex, pyDiv, hd,
      Bind.bind, Except.bind]
  · by_cases hm : m.den = 0
    · simp [latlongPart, hlt, hlg, ifdtag_to_decimal, pyIndex, pyDiv, hd,
        hm, Bind.bind, Except.bind]
    · have hs : s.den = 0 := by tauto
      simp [latlongPart, hlt, hlg, ifdtag_to_decimal, pyIndex, pyDiv, hd,
        hm, hs, Bind.bind, Except.bind]

/-- A header whose latitude seconds rational has a zero denominator. -/
def hdrZeroDenSec : Header :=
  ⟨[("GPS GPSLatitude", ⟨[⟨5, 1⟩, ⟨6, 1⟩, ⟨7, 0⟩], "", none⟩),
    ("GPS GPSLongitude", tagDms 1 2 3),
    ("GPS GPSLatitudeRef", refTag "N"), ("GPS GPSLongitudeRef", refTag "E")]⟩

/-- Witness for the amended C6 with a zero denominator in the seconds
position. -/
theorem zero_denominator_propagates_witness :
    grab_gps hdrZeroDenSec = .error .zeroDivisionError :=
  zero_denominator_propagates hdrZeroDenSec (tagDms 1 2 3)
    ⟨5, 1⟩ ⟨6, 1⟩ ⟨7, 0⟩ [] "" none rfl rfl
    (Or.inr (Or.inr rfl))

/-- A header with an altitude tag but no altitude reference tag. -/
def hdrAltNoRef : Header :=
  ⟨[("GPS GPSAltitude", ⟨[⟨5, 1⟩], "", none⟩)]⟩

/-- Counterexample for C9 as stated: an absent altitude-reference tag makes
the extractor raise KeyError instead of leaving the altitude positive. -/
theorem altitude_absent_ref_raises :
    grab_gps hdrAltNoRef = .error (.keyError "GPS GPSAltitudeRef") := rfl

/-- C9 (amended): with an altitude magnitude tag present, the extractor
decodes the single rational as numerator/denominator and, when an
altitude-reference tag is present, negates exactly when it compares equal
to the integer 1; when the altitude-reference tag is absent the extractor
raises KeyError instead of leaving the altitude positive (stated here with
the latitude tag absent so the altitude block is reached). -/
theorem altitude_decode (h : Header) (t : IfdTag) (r : RatPair)
    (ht : h.get "GPS GPSAltitude" = some t)
    (hv : t.values[0]? = some r) (hden : r.den ≠ 0) :
    (∀ altRef : IfdTag, h.get "GPS GPSAltitudeRef" = some altRef →
      ∀ m : GpsMeta, grab_gps h = .ok m →
        m.altitude = some (if altRef.eqInt 1
          then ((r.num : Rat) / (r.den : Rat)) * (-1)
          else (r.num : Rat) / (r.den : Rat)))
    ∧ (h.get "GPS GPSAltitudeRef" = none →
        h.get "GPS GPSLatitude" = none →
        grab_gps h = .error (.keyError "GPS GPSAltitudeRef")) := by
  constructor
  · intro altRef href m hm
    obtain ⟨ll, alt, h1, h2, hshape⟩ := grab_gps_ok_inv h m hm
    have ha := altPart_some h t altRef r ht hv hden href
    rw [h2] at ha
    simp only [Except.ok.injEq] at ha
    subst ha
    subst hshape
    cases ll <;> simp
  · intro href hlat
    exact grab_gps_err_alt h none _ (latlongPart_none h (Or.inl hlat))
      (altPart_keyError h t r ht hv hden href)

/-- An altitude reference tag indicating below sea level (integer 1). -/
def altRef1 : IfdTag := ⟨[], "1", some 1⟩

/-- A header with a 5-metre altitude tag and a below-sea-level reference. -/
def hdrAlt : Header :=
  ⟨[("GPS GPSAltitude", ⟨[⟨5, 1⟩], "", none⟩),
    ("GPS GPSAltitudeRef", altRef1)]⟩

/-- Witness for the amended C9 on a below-sea-level header. -/
theorem altitude_decode_witness :
    ((∀ altRef : IfdTag, Header.get hdrAlt "GPS GPSAltitudeRef" = some altRef →
      ∀ m : GpsMeta, grab_gps hdrAlt = .ok m →
        m.altitude = some (if altRef.eqInt 1
          then ((((5 : Int) : Rat)) / (((1 : Int) : Rat))) * (-1)
          else (((5 : Int) : Rat)) / (((1 : Int) : Rat))))
    ∧ (Header.get hdrAlt "GPS GPSAltitudeRef" = none →
        Header.get hdrAlt "GPS GPSLatitude" = none →
        grab_gps hdrAlt = .error (.keyError "GPS GPSAltitudeRef"))) :=
  altitude_decode hdrAlt ⟨[⟨5, 1⟩], "", none⟩ ⟨5, 1⟩ rfl rfl (by decide)

end Pic2Pin
